import Mathlib

/-!
# MoodMuse core — shallow embedding and verification

Shallow embedding of the playlist-expansion and track-resolution pipeline of
the MoodMuse repository:

* `cleanString`       — the string normalizer (`musicService`, regex pipeline);
* `fetchWithRetry`    — the resilient fetch loop, with the network modelled as a
                        per-attempt outcome function;
* `fetchTrackDetails` — the track resolver, with the two catalog search calls
                        modelled by their `fetchWithRetry`-level results;
* `addSongsToPlaylist`, `handleNext`, `likeStart`/`likeFinish`,
  `pivotStart`/`pivotFinish` — the playlist state machine and engagement
  policy of the `App` component, with each `async` AI-expansion flow split at
  its suspension point into a start step (lock check/acquire, AI call issued)
  and a finish step (result applied, lock released).

JavaScript strings are modelled as Lean `String` (ASCII-faithful:
`toLowerCase` becomes `Char.toLower` per character), numbers that are used as
integers/counters as `Nat`/`Int`, the fractional listen duration as `ℚ`, and
absent object fields (`undefined`/`null`) as `Option`.  Thrown exceptions are
modelled with `Except Unit`.  Regex replacement follows JavaScript
`String.replace` with a global regex: left-to-right scan over the original
string, each match replaced, scanning resuming after the match (replacements
are not rescanned); `.` matches any character except a line terminator.
-/

namespace MoodMuse

/-! ## JavaScript string primitives -/

/-- The line terminators that JavaScript regex `.` does not match. -/
def isLineTerm (c : Char) : Bool :=
  c == '\n' || c == '\r' || c == Char.ofNat 0x2028 || c == Char.ofNat 0x2029

/-- Whitespace for the purposes of JavaScript `String.prototype.trim`
(ASCII fragment). -/
def isJsWs (c : Char) : Bool :=
  c == ' ' || c == '\t' || c == '\n' || c == '\r' ||
  c == Char.ofNat 0x0b || c == Char.ofNat 0x0c

/-- Drop a case-insensitive literal pattern from the front of `l`, returning
the remainder, or `none` when `l` does not start with the pattern. -/
def dropCI : List Char → List Char → Option (List Char)
  | [], l => some l
  | _ :: _, [] => none
  | p :: ps, c :: cs => if p.toLower == c.toLower then dropCI ps cs else none

/-- Distance (number of `.`-matched characters) to the first position where
the case-insensitive literal `pat` matches, scanning left to right; `none`
when a line terminator or the end of the list intervenes first.  This is the
semantics of a lazy `.*?` followed by the literal `pat`. -/
def firstOccNoNl (pat : List Char) : List Char → Option Nat
  | [] => none
  | c :: cs =>
    if (dropCI pat (c :: cs)).isSome then some 0
    else if isLineTerm c then none
    else (firstOccNoNl pat cs).map (· + 1)

/-- Index of the last position where the case-insensitive literal `pat`
matches (the semantics of a greedy `.*` followed by the literal `pat`). -/
def lastOcc (pat : List Char) : List Char → Option Nat
  | [] => none
  | c :: cs =>
    match lastOcc pat cs with
    | some j => some (j + 1)
    | none => if (dropCI pat (c :: cs)).isSome then some 0 else none

/-- Match length at the head of `l` for a regex of the form
`pre.*?post` (case-insensitive literals `pre`, `post`, lazy middle). -/
def matchLazy (pre post : List Char) (l : List Char) : Option Nat :=
  match dropCI pre l with
  | none => none
  | some rest =>
    match firstOccNoNl post rest with
    | none => none
    | some k => some (pre.length + k + post.length)

/-- Match length at the head of `l` for a case-insensitive literal regex. -/
def matchLit (pat : List Char) (l : List Char) : Option Nat :=
  if (dropCI pat l).isSome then some pat.length else none

/-- Match length at the head of `l` for the regex `-.*remaster.*` (flag i):
a dash, then (greedily) the rest of the line, provided `remaster` occurs
after the dash within the line.  The final `.*` extends the match to the end
of the line. -/
def matchDashRemaster (l : List Char) : Option Nat :=
  match l with
  | '-' :: rest =>
    let lineRest := rest.takeWhile (fun c => !(isLineTerm c))
    if (lastOcc "remaster".toList lineRest).isSome then
      some (1 + lineRest.length)
    else none
  | _ => none

/-- Match length at the head of `l` for the regex `-.*single` (flag i):
a dash, then a greedy `.*`, then `single`; greediness picks the last
occurrence of `single` in the line, and the match ends right after it. -/
def matchDashSingle (l : List Char) : Option Nat :=
  match l with
  | '-' :: rest =>
    let lineRest := rest.takeWhile (fun c => !(isLineTerm c))
    match lastOcc "single".toList lineRest with
    | some j => some (1 + j + 6)
    | none => none
  | _ => none

/-- Global regex replacement by the empty string: scan left to right; when
the matcher fires (returning the match length, always positive for the
patterns used here), drop the match and resume after it; otherwise keep the
character.  Structured with explicit fuel (initially the length of the list)
so that it is structurally recursive and kernel-evaluable. -/
def replaceAllFuel (m : List Char → Option Nat) : Nat → List Char → List Char
  | 0, _ => []
  | _ + 1, [] => []
  | fuel + 1, c :: cs =>
    match m (c :: cs) with
    | some n => replaceAllFuel m fuel (cs.drop (n - 1))
    | none => c :: replaceAllFuel m fuel cs

/-- Global replacement of every match of `m` by the empty string. -/
def replaceAll (m : List Char → Option Nat) (l : List Char) : List Char :=
  replaceAllFuel m l.length l

/-- JavaScript `String.prototype.trim` on a character list. -/
def trimList (l : List Char) : List Char :=
  ((l.dropWhile isJsWs).reverse.dropWhile isJsWs).reverse

/-- `clean.split(ch)[0].trim()` guarded by `clean.includes(ch)`:
if the character occurs, keep only the text before its first occurrence and
trim; otherwise keep the string unchanged. -/
def splitHead (ch : Char) (l : List Char) : List Char :=
  if l.contains ch then trimList (l.takeWhile (fun c => !(c == ch))) else l

/-- The string normalizer `cleanString` of `musicService`, on character
lists: the seven regex removals in source order, then `trim`, then the `&`
and `,` primary-credit collapses. -/
def cleanStringL (l : List Char) : List Char :=
  let s1 := replaceAll (matchLazy "(feat.".toList ")".toList) l
  let s2 := replaceAll (matchLazy "(with".toList ")".toList) s1
  let s3 := replaceAll (matchLazy "[".toList "]".toList) s2
  let s4 := replaceAll matchDashRemaster s3
  let s5 := replaceAll (matchLit "remastered".toList) s4
  let s6 := replaceAll matchDashSingle s5
  let s7 := replaceAll (matchLazy "(".toList "version)".toList) s6
  let s8 := trimList s7
  let s9 := splitHead '&' s8
  splitHead ',' s9

/-- The string normalizer `cleanString` of `musicService`. -/
def cleanString (s : String) : String :=
  String.mk (cleanStringL s.data)

/-- JavaScript `toLowerCase` (ASCII fragment). -/
def jsToLower (s : String) : String :=
  String.mk (s.data.map Char.toLower)

/-- JavaScript `trim`. -/
def jsTrim (s : String) : String :=
  String.mk (trimList s.data)

/-- Does `needle` occur as a contiguous sublist of the list? -/
def hasSub (needle : List Char) : List Char → Bool
  | [] => needle.isEmpty
  | c :: cs => needle.isPrefixOf (c :: cs) || hasSub needle cs

/-- JavaScript `hay.includes(needle)`. -/
def jsIncludes (hay needle : String) : Bool :=
  hasSub needle.data hay.data

/-- JavaScript non-global `String.replace` with a plain-string pattern:
replace the first (case-sensitive) occurrence only. -/
def replaceFirstL (pat rep : List Char) : List Char → List Char
  | [] => []
  | c :: cs =>
    if pat.isPrefixOf (c :: cs) then rep ++ (c :: cs).drop pat.length
    else c :: replaceFirstL pat rep cs

/-- JavaScript `s.replace(pat, rep)` with string arguments. -/
def replaceFirst (s pat rep : String) : String :=
  String.mk (replaceFirstL pat.data rep.data s.data)

/-! ## Data model (`types.ts`) -/

/-- A song suggestion produced by the AI collaborator. -/
structure SongSuggestion where
  title : String
  artist : String
  moodDescription : String
deriving DecidableEq, Repr

/-- A playlist track (`Track extends SongSuggestion`).  `previewUrl` is
`string | null` (with `undefined` also possible at runtime), modelled as
`Option String` with `none` for both `null` and `undefined`; `externalUrl`
is typed `string` but is populated from an optional catalog field, so it is
modelled as `Option String` (`some ""` for the literal empty string). -/
structure Track where
  title : String
  artist : String
  moodDescription : String
  id : Nat
  previewUrl : Option String
  coverUrl : String
  externalUrl : Option String
  isPlayable : Bool
deriving DecidableEq, Repr

/-- One result object of the iTunes search response.  Every field may be
absent in the JSON, hence `Option`. -/
structure CatalogTrack where
  trackId : Option Nat
  previewUrl : Option String
  artworkUrl100 : Option String
  trackViewUrl : Option String
  trackName : Option String
  artistName : Option String
deriving DecidableEq, Repr

/-- The parsed iTunes search response body.  `resultCount` is an arbitrary
JSON number (modelled as `Int`) and is not forced to agree with
`results.length`. -/
structure SearchData where
  resultCount : Int
  results : List CatalogTrack
deriving DecidableEq, Repr

/-- JavaScript truthiness of an optional string: present and non-empty. -/
def truthyStr : Option String → Bool
  | some s => !(s == "")
  | none => false

/-- JavaScript `a || d` for an optional string `a` and default `d`:
the default is used when `a` is absent or empty (falsy). -/
def jsOrStr (a : Option String) (d : String) : String :=
  match a with
  | some s => if s == "" then d else s
  | none => d

/-! ## Resilient fetch (`fetchWithRetry`) -/

/-- Abstraction of one HTTP response body: empty/whitespace-only text, text
that parses as a search response, or text that is not valid JSON. -/
inductive BodyModel where
  | blank
  | json (d : SearchData)
  | malformed
deriving DecidableEq, Repr

/-- The outcome the network yields for one fetch attempt: the fetch call
itself rejects, or an HTTP response with a status and body arrives. -/
inductive FetchOutcome where
  | netError
  | http (status : Nat) (body : BodyModel)
deriving DecidableEq, Repr

/-- `Response.ok`: status in the range 200–299. -/
def responseOk (status : Nat) : Bool :=
  200 ≤ status && status < 300

/-- One iteration of the `fetchWithRetry` loop body up to its catch:
`some r` when the iteration returns `r` (`Except.ok none` is the rate-limit
sentinel `null`, `Except.ok (some d)` a parsed value), and `none` when the
iteration throws (non-ok status or malformed JSON) and the catch decides
between retrying and rethrowing. -/
def oneAttempt : FetchOutcome → Option (Except Unit (Option SearchData))
  | .netError => none
  | .http status body =>
    if status = 403 || status = 429 then some (Except.ok none)
    else if !(responseOk status) then none
    else
      match body with
      | .blank => some (Except.ok (some ⟨0, []⟩))
      | .json d => some (Except.ok (some d))
      | .malformed => none

/-- The `fetchWithRetry` loop from attempt index `i` with `n` further
attempts allowed after this one; returns the result together with the number
of attempts performed.  On the last allowed attempt a failure is rethrown
(`Except.error`). -/
def fetchWithRetryFrom (env : Nat → FetchOutcome) : Nat → Nat → Except Unit (Option SearchData) × Nat
  | i, 0 =>
    match oneAttempt (env i) with
    | some r => (r, 1)
    | none => (Except.error (), 1)
  | i, n + 1 =>
    match oneAttempt (env i) with
    | some r => (r, 1)
    | none =>
      let p := fetchWithRetryFrom env (i + 1) n
      (p.1, p.2 + 1)

/-- `fetchWithRetry(url, retries)` with the network modelled by `env`
(attempt number to outcome): attempts `0..retries`, returning the result and
the number of attempts performed. -/
def fetchWithRetry (env : Nat → FetchOutcome) (retries : Nat) : Except Unit (Option SearchData) × Nat :=
  fetchWithRetryFrom env 0 retries

/-! ## Track resolver (`fetchTrackDetails`) -/

/-- The observable part of one catalog search call: the query term (before
URL-encoding) and the result limit.  `media=music`, `entity=song` and
`country=US` are fixed in both calls. -/
structure Query where
  term : String
  limit : Nat
deriving DecidableEq, Repr

/-- The result of one `fetchWithRetry` call as seen by the resolver:
thrown failure, the rate-limit sentinel `null`, or a parsed response. -/
abbrev FetchResult : Type := Except Unit (Option SearchData)

/-- The primary catalog query: cleaned title and artist, limit 1. -/
def primaryQuery (sugg : SongSuggestion) : Query :=
  ⟨cleanString sugg.title ++ " " ++ cleanString sugg.artist, 1⟩

/-- The secondary, looser catalog query: cleaned title only, limit 5. -/
def secondaryQuery (sugg : SongSuggestion) : Query :=
  ⟨cleanString sugg.title, 5⟩

/-- The fallback `Track` built at the top of `fetchTrackDetails`. -/
def fallbackTrack (sugg : SongSuggestion) (index : Nat) : Track where
  title := sugg.title
  artist := sugg.artist
  moodDescription := sugg.moodDescription
  id := index
  previewUrl := none
  coverUrl := "https://picsum.photos/600/600?blur=2"
  externalUrl := some ""
  isPlayable := false

/-- The resolved `Track` built from a catalog result `r`:
`trackId || index` (0 is falsy), preview URL as-is, artwork upgraded from
its 100x100 variant to 600x600 when present (else the blurred stock image),
`isPlayable` from preview-URL truthiness, and title/artist overwritten from
catalog metadata when truthy. -/
def buildTrack (sugg : SongSuggestion) (index : Nat) (r : CatalogTrack) : Track where
  title := jsOrStr r.trackName sugg.title
  artist := jsOrStr r.artistName sugg.artist
  moodDescription := sugg.moodDescription
  id :=
    match r.trackId with
    | some n => if n = 0 then index else n
    | none => index
  previewUrl := r.previewUrl
  coverUrl :=
    jsOrStr
      (match r.artworkUrl100 with
       | some a => if a == "" then none else some (replaceFirst a "100x100bb" "600x600bb")
       | none => none)
      "https://picsum.photos/600/600?blur=2"
  externalUrl := r.trackViewUrl
  isPlayable := truthyStr r.previewUrl

/-- The manual artist filter applied to secondary-query candidates:
`r.artistName && cleanArtist && r.artistName.toLowerCase().includes(cleanArtist.toLowerCase())`. -/
def artistFilter (cleanArtist : String) (r : CatalogTrack) : Bool :=
  truthyStr r.artistName && !(cleanArtist == "") &&
    jsIncludes (jsToLower (r.artistName.getD "")) (jsToLower cleanArtist)

/-- The in-place narrowing of the secondary response: when it reports
results, and some candidate passes the artist filter, `results` is replaced
by that single candidate and `resultCount` by 1; otherwise the data is left
unchanged. -/
def secondaryData (cleanArtist : String) (d1 : SearchData) : SearchData :=
  if 0 < d1.resultCount then
    match d1.results.find? (artistFilter cleanArtist) with
    | some m => ⟨1, [m]⟩
    | none => d1
  else d1

/-- The final step of `fetchTrackDetails`: build a track from `results[0]`
when `resultCount > 0`, else fall back.  Accessing `results[0]` of an empty
`results` array throws and is caught by the outer handler, which also yields
the fallback. -/
def pickTrack (sugg : SongSuggestion) (index : Nat) (d : SearchData) : Track :=
  if 0 < d.resultCount then
    match d.results with
    | [] => fallbackTrack sugg index
    | r :: _ => buildTrack sugg index r
  else fallbackTrack sugg index

/-- `fetchTrackDetails(suggestion, index)` with the two possible catalog
calls modelled by their `fetchWithRetry`-level results `pRes` (primary) and
`sRes` (secondary, consulted only when the primary yields a zero
`resultCount`).  Returns the resolved `Track` together with the list of
catalog search calls issued.  A thrown primary call is caught by the outer
handler (fallback); a thrown secondary call is caught by the inner handler,
leaving the primary's zero-result data in place (hence also fallback). -/
def fetchTrackDetailsFull (sugg : SongSuggestion) (index : Nat)
    (pRes sRes : FetchResult) : Track × List Query :=
  match pRes with
  | .error _ => (fallbackTrack sugg index, [primaryQuery sugg])
  | .ok none => (fallbackTrack sugg index, [primaryQuery sugg])
  | .ok (some d0) =>
    if d0.resultCount = 0 then
      match sRes with
      | .error _ =>
        (pickTrack sugg index d0, [primaryQuery sugg, secondaryQuery sugg])
      | .ok none =>
        (fallbackTrack sugg index, [primaryQuery sugg, secondaryQuery sugg])
      | .ok (some d1) =>
        (pickTrack sugg index (secondaryData (cleanString sugg.artist) d1),
         [primaryQuery sugg, secondaryQuery sugg])
    else (pickTrack sugg index d0, [primaryQuery sugg])

/-- The `Track` returned by `fetchTrackDetails`. -/
def fetchTrackDetails (sugg : SongSuggestion) (index : Nat)
    (pRes sRes : FetchResult) : Track :=
  (fetchTrackDetailsFull sugg index pRes sRes).1

/-- The catalog search calls issued by `fetchTrackDetails`. -/
def fetchTrackCallsMade (sugg : SongSuggestion) (index : Nat)
    (pRes sRes : FetchResult) : List Query :=
  (fetchTrackDetailsFull sugg index pRes sRes).2

/-! ## Playlist state machine and engagement policy (`App`) -/

/-- The outcome of one AI collaborator call (`getRefinedSongs` /
`getPivotSongs`): a parsed song list, an empty `response.text`, a rejected
request, or a `response.text` that is not valid JSON. -/
inductive AIOutcome where
  | success (songs : List SongSuggestion)
  | emptyResponse
  | netError
  | parseError
deriving DecidableEq, Repr

/-- `getRefinedSongs`: returns the parsed song list on success and `[]` when
the response is empty or any exception occurs (caught and logged). -/
def getRefinedSongs : AIOutcome → List SongSuggestion
  | .success songs => songs
  | .emptyResponse => []
  | .netError => []
  | .parseError => []

/-- `getPivotSongs`: identical error policy to `getRefinedSongs`. -/
def getPivotSongs : AIOutcome → List SongSuggestion
  | .success songs => songs
  | .emptyResponse => []
  | .netError => []
  | .parseError => []

/-- The duplicate test of `addSongsToPlaylist` against one existing track:
case-insensitive trimmed exact title equality, or case-insensitive substring
containment of the suggestion's title in the track's title AND of the
suggestion's artist in the track's artist. -/
def dupRule (t : Track) (sug : SongSuggestion) : Bool :=
  (jsTrim (jsToLower t.title) == jsTrim (jsToLower sug.title)) ||
  (jsIncludes (jsToLower t.title) (jsToLower sug.title) &&
   jsIncludes (jsToLower t.artist) (jsToLower sug.artist))

/-- `playlist.some(existingTrack => ...)`: is the suggestion a duplicate of
some existing playlist entry? -/
def isDuplicate (playlist : List Track) (sug : SongSuggestion) : Bool :=
  playlist.any (fun t => dupRule t sug)

/-- The placeholder `Track` appended for a not-yet-resolved suggestion. -/
def placeholderTrack (song : SongSuggestion) (id : Nat) : Track where
  title := song.title
  artist := song.artist
  moodDescription := song.moodDescription
  id := id
  previewUrl := none
  coverUrl := "https://picsum.photos/600/600?blur=5"
  externalUrl := some ""
  isPlayable := false

/-- The observable outcome of one `addSongsToPlaylist` call: the new
playlist, the count shown by the additions notification (if any), and the
backfill pass started (its suggestion slice and base length), if any. -/
structure AddResult where
  playlist : List Track
  notifiedCount : Option Nat
  backfill : Option (List SongSuggestion × Nat)
deriving DecidableEq, Repr

/-- `addSongsToPlaylist(newSongs)` acting on a playlist snapshot: filter out
duplicates; when the unique remainder is non-empty, append it as
placeholders (ids `currentLength + idx + Date.now()`, with `Date.now()`
passed in as `now`), show the count notification and start a backfill pass
for the appended slice; otherwise do nothing. -/
def addSongsToPlaylist (playlist : List Track) (newSongs : List SongSuggestion)
    (now : Nat) : AddResult :=
  let uniqueSuggestions := newSongs.filter (fun sug => !(isDuplicate playlist sug))
  if 0 < uniqueSuggestions.length then
    let currentLength := playlist.length
    let newPlaceholders :=
      uniqueSuggestions.enum.map
        (fun p => placeholderTrack p.2 (currentLength + p.1 + now))
    { playlist := playlist ++ newPlaceholders
      notifiedCount := some uniqueSuggestions.length
      backfill := some (uniqueSuggestions, currentLength) }
  else
    { playlist := playlist, notifiedCount := none, backfill := none }

/-- The `App` component state observed by the engagement policy: playlist,
cursor, skip counter, the generation lock (`isGeneratingRef`), and the toast
notification text. -/
structure AppState where
  playlist : List Track
  currentIndex : Nat
  consecutiveSkips : Nat
  isGenerating : Bool
  notification : Option String
deriving DecidableEq, Repr

/-- The toast shown when a pivot flow starts. -/
def pivotMsg : String := "Probando otra vibra..."

/-- The toast shown when a refine flow starts. -/
def refineMsg : String := "Sintonizando algoritmo con tu vibra..."

/-- The count-of-additions toast. -/
def addedMsg (n : Nat) : String :=
  "Agregadas " ++ toString n ++ " nuevas sugerencias."

/-- Apply one `addSongsToPlaylist` call to the app state (the playlist
update and, when songs were added, the count notification). -/
def applyAddSongs (s : AppState) (newSongs : List SongSuggestion) (now : Nat) : AppState :=
  let r := addSongsToPlaylist s.playlist newSongs now
  { s with
    playlist := r.playlist
    notification :=
      match r.notifiedCount with
      | some n => some (addedMsg n)
      | none => s.notification }

/-- The synchronous prefix of `handleLike` up to the AI call: if the
generation lock is held, return unchanged without issuing an AI call
(`false`); otherwise acquire the lock, show the refine toast, reset the skip
counter, and issue the refine call (`true`). -/
def likeStart (s : AppState) : AppState × Bool :=
  if s.isGenerating then (s, false)
  else
    ({ s with isGenerating := true, notification := some refineMsg, consecutiveSkips := 0 },
     true)

/-- The rest of `handleLike` after the AI call resolves: on a response,
merge `getRefinedSongs`' list via `addSongsToPlaylist`; on a thrown
exception (caught and logged), change nothing; in both cases release the
lock (`finally`). -/
def likeFinish (s : AppState) (r : Except Unit AIOutcome) (now : Nat) : AppState :=
  { (match r with
     | .error _ => s
     | .ok o => applyAddSongs s (getRefinedSongs o) now) with
    isGenerating := false }

/-- The synchronous prefix of `handlePivot` up to the AI call: lock check,
lock acquisition and the pivot toast. -/
def pivotStart (s : AppState) : AppState × Bool :=
  if s.isGenerating then (s, false)
  else ({ s with isGenerating := true, notification := some pivotMsg }, true)

/-- The rest of `handlePivot` after the AI call resolves: merge
`getPivotSongs`' list, or change nothing on a thrown exception; release the
lock in both cases (`finally`). -/
def pivotFinish (s : AppState) (r : Except Unit AIOutcome) (now : Nat) : AppState :=
  { (match r with
     | .error _ => s
     | .ok o => applyAddSongs s (getPivotSongs o) now) with
    isGenerating := false }

/-- A whole pivot flow run to completion (no other event interleaves in the
`handleNext`-triggered case modelled here). -/
def pivotFlow (s : AppState) (r : Except Unit AIOutcome) (now : Nat) : AppState :=
  if (pivotStart s).2 then pivotFinish (pivotStart s).1 r now else (pivotStart s).1

/-- `handleNext(duration)`: reads the current track (`none` models the
TypeError thrown when the playlist is empty), applies the skip-counting
policy to playable tracks, possibly runs a pivot flow (when the incremented
counter reaches 3 and the lock is free), then advances the cursor modulo the
snapshot playlist length.  Returns the new state and whether a pivot was
triggered. -/
def handleNext (s : AppState) (duration : ℚ) (r : Except Unit AIOutcome)
    (now : Nat) : Option (AppState × Bool) :=
  match s.playlist[s.currentIndex]? with
  | none => none
  | some currentTrack =>
    let step : AppState × Bool :=
      if currentTrack.isPlayable = true then
        if duration < 8 then
          let newSkips := s.consecutiveSkips + 1
          if 3 ≤ newSkips ∧ s.isGenerating = false then
            (pivotFlow { s with consecutiveSkips := 0 } r now, true)
          else ({ s with consecutiveSkips := newSkips }, false)
        else ({ s with consecutiveSkips := 0 }, false)
      else (s, false)
    some ({ step.1 with currentIndex := (s.currentIndex + 1) % s.playlist.length }, step.2)

/-! ## Helper lemmas -/

theorem truthyStr_iff (o : Option String) :
    truthyStr o = true ↔ ∃ u, o = some u ∧ u ≠ "" := by
  cases o <;> simp [truthyStr]

theorem pickTrack_shape (sugg : SongSuggestion) (index : Nat) (d : SearchData) :
    pickTrack sugg index d = fallbackTrack sugg index ∨
    ∃ r, pickTrack sugg index d = buildTrack sugg index r := by
  unfold pickTrack
  split
  · split
    · exact Or.inl rfl
    · exact Or.inr ⟨_, rfl⟩
  · exact Or.inl rfl

theorem fetchTrackDetails_shape (sugg : SongSuggestion) (index : Nat)
    (pRes sRes : FetchResult) :
    fetchTrackDetails sugg index pRes sRes = fallbackTrack sugg index ∨
    ∃ r, fetchTrackDetails sugg index pRes sRes = buildTrack sugg index r := by
  unfold fetchTrackDetails fetchTrackDetailsFull
  rcases pRes with e | p
  · exact Or.inl rfl
  rcases p with _ | d0
  · exact Or.inl rfl
  simp only
  split
  · rcases sRes with e | sp
    · exact pickTrack_shape sugg index d0
    rcases sp with _ | d1
    · exact Or.inl rfl
    · exact pickTrack_shape sugg index (secondaryData (cleanString sugg.artist) d1)
  · exact pickTrack_shape sugg index d0

/-! ## Claim theorems -/

/-- Claim C1: for every `SongSuggestion` (including ones with empty title or
artist) and every assigned index, and for every outcome of the two catalog
calls (including thrown failures, which the resolver absorbs — the model is
a total function into `Track`), the returned `Track` has `isPlayable = true`
exactly when its resolved `previewUrl` is a present, non-empty string. -/
theorem resolver_isPlayable_iff_preview (sugg : SongSuggestion) (index : Nat)
    (pRes sRes : FetchResult) :
    (fetchTrackDetails sugg index pRes sRes).isPlayable = true ↔
    ∃ u, (fetchTrackDetails sugg index pRes sRes).previewUrl = some u ∧ u ≠ "" := by
  rcases fetchTrackDetails_shape sugg index pRes sRes with h | ⟨r, h⟩
  · rw [h]
    simp [fallbackTrack]
  · rw [h]
    show truthyStr r.previewUrl = true ↔ ∃ u, r.previewUrl = some u ∧ u ≠ ""
    exact truthyStr_iff r.previewUrl

/-- Claim C4 (code bug): the normalizer is not idempotent. One application
maps `"remaremasteredstered"` to `"remastered"` (the global regex replace
scans the original string and does not rescan the spliced result), and a
second application maps that to `""`. -/
theorem cleanString_not_idempotent :
    cleanString (cleanString "remaremasteredstered") ≠
      cleanString "remaremasteredstered" := by decide

/-- Claim C5: when the primary catalog call returns the rate-limit sentinel
`null`, the resolver returns the fallback `Track` and the call list is
exactly the primary query — the secondary query is never issued. -/
theorem resolver_rate_limit_short_circuit (sugg : SongSuggestion) (index : Nat)
    (sRes : FetchResult) :
    fetchTrackDetailsFull sugg index (Except.ok none) sRes
      = (fallbackTrack sugg index, [primaryQuery sugg]) := rfl

/-- Claim C9: when the AI call of a background refine or pivot flow fails —
thrown exception (`Except.error`, also covering a response whose parsed
shape makes the merge throw), empty response, network error mapped to `[]`,
or malformed JSON mapped to `[]` — the flow leaves the playlist unchanged. -/
theorem ai_failure_leaves_playlist_unchanged (s : AppState) (now : Nat) :
    (likeFinish s (Except.error ()) now).playlist = s.playlist
    ∧ (likeFinish s (Except.ok AIOutcome.emptyResponse) now).playlist = s.playlist
    ∧ (likeFinish s (Except.ok AIOutcome.netError) now).playlist = s.playlist
    ∧ (likeFinish s (Except.ok AIOutcome.parseError) now).playlist = s.playlist
    ∧ (pivotFinish s (Except.error ()) now).playlist = s.playlist
    ∧ (pivotFinish s (Except.ok AIOutcome.emptyResponse) now).playlist = s.playlist
    ∧ (pivotFinish s (Except.ok AIOutcome.netError) now).playlist = s.playlist
    ∧ (pivotFinish s (Except.ok AIOutcome.parseError) now).playlist = s.playlist :=
  ⟨rfl, rfl, rfl, rfl, rfl, rfl, rfl, rfl⟩

theorem placeholders_project (uniq : List SongSuggestion) (base now : Nat) :
    (uniq.enum.map (fun p => placeholderTrack p.2 (base + p.1 + now))).map
        (fun t => (t.title, t.artist))
      = uniq.map (fun sug => (sug.title, sug.artist)) := by
  rw [List.map_map]
  calc uniq.enum.map
        ((fun t : Track => (t.title, t.artist)) ∘
          (fun p : Nat × SongSuggestion => placeholderTrack p.2 (base + p.1 + now)))
      = uniq.enum.map
          ((fun sug : SongSuggestion => (sug.title, sug.artist)) ∘ Prod.snd) := rfl
    _ = (uniq.enum.map Prod.snd).map (fun sug => (sug.title, sug.artist)) := by
          rw [List.map_map]
    _ = uniq.map (fun sug => (sug.title, sug.artist)) := by rw [List.enum_map_snd]

/-- Claim C7: `addSongsToPlaylist` treats a suggestion as a duplicate exactly
when some existing entry matches it by (a) case-insensitive trimmed exact
title equality or (b) case-insensitive substring containment of its title
and of its artist; it appends exactly the non-duplicate remainder (witnessed
on title/artist projections); and on existing titles
`["Blinding Lights", "Levitating"]`, appending `"blinding lights"` and
`"Save Your Tears"` adds only `"Save Your Tears"`. -/
theorem append_dedup_correct (playlist : List Track)
    (newSongs : List SongSuggestion) (now : Nat) :
    (∀ sug, isDuplicate playlist sug = true ↔
      ∃ t ∈ playlist,
        jsTrim (jsToLower t.title) = jsTrim (jsToLower sug.title) ∨
        (jsIncludes (jsToLower t.title) (jsToLower sug.title) = true ∧
         jsIncludes (jsToLower t.artist) (jsToLower sug.artist) = true))
    ∧ ((addSongsToPlaylist playlist newSongs now).playlist.map
          (fun t => (t.title, t.artist)) =
        playlist.map (fun t => (t.title, t.artist)) ++
        (newSongs.filter (fun sug => !(isDuplicate playlist sug))).map
          (fun sug => (sug.title, sug.artist)))
    ∧ ((addSongsToPlaylist
          [placeholderTrack ⟨"Blinding Lights", "The Weeknd", "m0"⟩ 0,
           placeholderTrack ⟨"Levitating", "Dua Lipa", "m1"⟩ 1]
          [⟨"blinding lights", "The Weeknd", "ma"⟩,
           ⟨"Save Your Tears", "The Weeknd", "mb"⟩]
          now).playlist.map Track.title =
        ["Blinding Lights", "Levitating", "Save Your Tears"]) := by
  refine ⟨?_, ?_, ?_⟩
  · intro sug
    simp only [isDuplicate, dupRule, List.any_eq_true, Bool.or_eq_true,
      Bool.and_eq_true, beq_iff_eq]
  · by_cases h0 :
      0 < (newSongs.filter (fun sug => !(isDuplicate playlist sug))).length
    · simp only [addSongsToPlaylist, if_pos h0]
      rw [List.map_append, placeholders_project]
    · have hnil : newSongs.filter (fun sug => !(isDuplicate playlist sug)) = [] := by
        rcases Nat.eq_zero_or_pos
            (newSongs.filter (fun sug => !(isDuplicate playlist sug))).length with
          hz | hpos
        · exact List.length_eq_zero.mp hz
        · exact absurd hpos h0
      simp only [addSongsToPlaylist, if_neg h0]
      rw [hnil]
      simp
  · rfl

/-- Claim C10: a batch in which every suggestion is a duplicate of an
existing playlist entry causes no state change: the playlist is returned
unchanged, no count-of-additions notification is shown, and no backfill pass
is started. -/
theorem append_all_duplicates_no_change (playlist : List Track)
    (newSongs : List SongSuggestion) (now : Nat)
    (h : ∀ sug ∈ newSongs, isDuplicate playlist sug = true) :
    addSongsToPlaylist playlist newSongs now =
      { playlist := playlist, notifiedCount := none, backfill := none } := by
  have hf : newSongs.filter (fun sug => !(isDuplicate playlist sug)) = [] := by
    rw [List.filter_eq_nil_iff]
    intro a ha
    simp [h a ha]
  simp only [addSongsToPlaylist, hf]
  rfl

theorem append_all_duplicates_no_change_witness :
    addSongsToPlaylist
        [placeholderTrack ⟨"Blinding Lights", "The Weeknd", "m0"⟩ 0]
        [⟨"blinding lights", "The Weeknd", "ma"⟩] 5 =
      { playlist := [placeholderTrack ⟨"Blinding Lights", "The Weeknd", "m0"⟩ 0],
        notifiedCount := none, backfill := none } :=
  append_all_duplicates_no_change
    [placeholderTrack ⟨"Blinding Lights", "The Weeknd", "m0"⟩ 0]
    [⟨"blinding lights", "The Weeknd", "ma"⟩] 5 (by decide)

theorem fetchWithRetryFrom_rate_limited (env : Nat → FetchOutcome) :
    ∀ (k i n : Nat), k ≤ n →
      (∀ j, j < k → oneAttempt (env (i + j)) = none) →
      oneAttempt (env (i + k)) = some (Except.ok none) →
      fetchWithRetryFrom env i n = (Except.ok none, k + 1) := by
  intro k
  induction k with
  | zero =>
    intro i n _ _ hrl
    rw [Nat.add_zero] at hrl
    cases n with
    | zero => simp [fetchWithRetryFrom, hrl]
    | succ m => simp [fetchWithRetryFrom, hrl]
  | succ k ih =>
    intro i n hkn hfail hrl
    cases n with
    | zero => omega
    | succ m =>
      have h0 : oneAttempt (env i) = none := by
        have h := hfail 0 (Nat.succ_pos k)
        rwa [Nat.add_zero] at h
      have hrec := ih (i + 1) m (Nat.succ_le_succ_iff.mp hkn)
        (fun j hj => by
          have h := hfail (j + 1) (Nat.succ_lt_succ hj)
          rwa [show i + (j + 1) = i + 1 + j by omega] at h)
        (by rwa [show i + 1 + k = i + (k + 1) by omega])
      simp [fetchWithRetryFrom, h0, hrec]

/-- Claim C6: if the first attempt of `fetchWithRetry` that gets past its
catch receives HTTP status 403 or 429, the function returns the `null`
sentinel right away, having performed exactly the attempts up to and
including that one — no retry follows a rate-limit response. -/
theorem fetchWithRetry_rate_limit_no_retry (env : Nat → FetchOutcome)
    (retries i : Nat) (b : BodyModel) (hle : i ≤ retries)
    (hfail : ∀ j, j < i → oneAttempt (env j) = none)
    (hrl : env i = FetchOutcome.http 403 b ∨ env i = FetchOutcome.http 429 b) :
    fetchWithRetry env retries = (Except.ok none, i + 1) := by
  apply fetchWithRetryFrom_rate_limited env i 0 retries hle
  · intro j hj
    rw [Nat.zero_add]
    exact hfail j hj
  · rw [Nat.zero_add]
    rcases hrl with h | h <;> rw [h] <;> rfl

/-- A network trace for the witness of `fetchWithRetry_rate_limit_no_retry`:
the first attempt rejects, the second is rate-limited. -/
def c6env : Nat → FetchOutcome := fun j =>
  if j = 0 then FetchOutcome.netError else FetchOutcome.http 429 BodyModel.blank

theorem fetchWithRetry_rate_limit_no_retry_witness :
    fetchWithRetry c6env 2 = (Except.ok none, 2) :=
  fetchWithRetry_rate_limit_no_retry c6env 2 1 BodyModel.blank (by decide)
    (fun j hj => by
      have hj0 : j = 0 := Nat.lt_one_iff.mp hj
      subst hj0
      rfl)
    (Or.inr rfl)

/-- A suggestion for exercising the secondary-query artist filter. -/
def c2sugg : SongSuggestion := ⟨"Song", "Yann", "mood"⟩

/-- A secondary-query candidate whose catalog artist name does not contain
the cleaned artist name of `c2sugg`. -/
def c2cand : CatalogTrack :=
  ⟨some 7, some "https://preview.example/a.m4a", some "https://img.example/100x100bb/a.jpg",
   some "https://view.example/a", some "Song X", some "Zed"⟩

/-- Claim C2 (counterexample): with a zero-result primary response and a
secondary response whose single candidate fails the artist filter, the
resolver does not return the fallback Track — it resolves the failing
candidate, yielding a playable track. -/
theorem resolver_secondary_filter_counterexample :
    [c2cand].find? (artistFilter (cleanString c2sugg.artist)) = none
    ∧ fetchTrackDetails c2sugg 0 (Except.ok (some ⟨0, []⟩))
        (Except.ok (some ⟨1, [c2cand]⟩)) ≠ fallbackTrack c2sugg 0
    ∧ (fetchTrackDetails c2sugg 0 (Except.ok (some ⟨0, []⟩))
        (Except.ok (some ⟨1, [c2cand]⟩))).isPlayable = true := by
  refine ⟨?_, ?_, ?_⟩ <;> decide

/-- Claim C2 (amended): when the primary query yields a zero `resultCount`,
the resolver issues the secondary title-only query with limit 5 (exactly two
calls are made).  If the secondary response reports results and some
candidate passes the artist filter, the first passing candidate is resolved;
if no candidate passes the filter, the first candidate is resolved anyway;
the fallback Track results only when the secondary response reports no
results, is the rate-limit sentinel, or the secondary call throws. -/
theorem resolver_secondary_behavior (sugg : SongSuggestion) (index : Nat)
    (d0 : SearchData) (sRes : FetchResult) (h0 : d0.resultCount = 0) :
    fetchTrackCallsMade sugg index (Except.ok (some d0)) sRes
        = [primaryQuery sugg, secondaryQuery sugg]
    ∧ (∀ d1 m, sRes = Except.ok (some d1) → 0 < d1.resultCount →
        d1.results.find? (artistFilter (cleanString sugg.artist)) = some m →
        fetchTrackDetails sugg index (Except.ok (some d0)) sRes
          = buildTrack sugg index m)
    ∧ (∀ d1 r rest, sRes = Except.ok (some d1) → 0 < d1.resultCount →
        d1.results.find? (artistFilter (cleanString sugg.artist)) = none →
        d1.results = r :: rest →
        fetchTrackDetails sugg index (Except.ok (some d0)) sRes
          = buildTrack sugg index r)
    ∧ (∀ d1, sRes = Except.ok (some d1) → ¬ 0 < d1.resultCount →
        fetchTrackDetails sugg index (Except.ok (some d0)) sRes
          = fallbackTrack sugg index)
    ∧ (sRes = Except.ok none →
        fetchTrackDetails sugg index (Except.ok (some d0)) sRes
          = fallbackTrack sugg index)
    ∧ (∀ e, sRes = Except.error e →
        fetchTrackDetails sugg index (Except.ok (some d0)) sRes
          = fallbackTrack sugg index) := by
  have hne : ¬ 0 < d0.resultCount := by omega
  refine ⟨?_, ?_, ?_, ?_, ?_, ?_⟩
  · rcases sRes with e | sp
    · simp [fetchTrackCallsMade, fetchTrackDetailsFull, h0]
    rcases sp with _ | d1 <;> simp [fetchTrackCallsMade, fetchTrackDetailsFull, h0]
  · intro d1 m hs h1 hm
    subst hs
    simp only [fetchTrackDetails, fetchTrackDetailsFull, if_pos h0]
    simp only [secondaryData, if_pos h1, hm]
    simp [pickTrack]
  · intro d1 r rest hs h1 hfind hres
    subst hs
    simp only [fetchTrackDetails, fetchTrackDetailsFull, if_pos h0]
    simp only [secondaryData, if_pos h1, hfind]
    simp [pickTrack, if_pos h1, hres]
  · intro d1 hs h1
    subst hs
    simp only [fetchTrackDetails, fetchTrackDetailsFull, if_pos h0]
    simp only [secondaryData, if_neg h1]
    simp [pickTrack, if_neg h1]
  · intro hs
    subst hs
    simp [fetchTrackDetails, fetchTrackDetailsFull, h0]
  · intro e hs
    subst hs
    simp only [fetchTrackDetails, fetchTrackDetailsFull, if_pos h0]
    simp [pickTrack, if_neg hne]

theorem resolver_secondary_behavior_witness :
    fetchTrackCallsMade c2sugg 0 (Except.ok (some ⟨0, []⟩))
        (Except.ok (some ⟨1, [c2cand]⟩))
      = [primaryQuery c2sugg, secondaryQuery c2sugg]
    ∧ fetchTrackDetails c2sugg 0 (Except.ok (some ⟨0, []⟩))
        (Except.ok (some ⟨1, [c2cand]⟩))
      = buildTrack c2sugg 0 c2cand := by
  have h := resolver_secondary_behavior c2sugg 0 ⟨0, []⟩
    (Except.ok (some ⟨1, [c2cand]⟩)) rfl
  exact ⟨h.1, h.2.2.1 ⟨1, [c2cand]⟩ c2cand [] rfl (by decide) (by decide) rfl⟩

theorem pivotFinish_consecutiveSkips (s : AppState) (r : Except Unit AIOutcome)
    (now : Nat) : (pivotFinish s r now).consecutiveSkips = s.consecutiveSkips := by
  rcases r with e | o <;> rfl

theorem pivotFlow_consecutiveSkips (s : AppState) (r : Except Unit AIOutcome)
    (now : Nat) : (pivotFlow s r now).consecutiveSkips = s.consecutiveSkips := by
  by_cases h : s.isGenerating = true
  · simp [pivotFlow, pivotStart, h]
  · simp [pivotFlow, pivotStart, h, pivotFinish_consecutiveSkips]

/-- The playable track used in the skip-counter scenarios. -/
def c3track : Track := ⟨"T", "A", "m", 1, some "p", "c", some "e", true⟩

/-- A four-track all-playable playlist. -/
def c3pl : List Track := [c3track, c3track, c3track, c3track]

/-- An AI outcome for flows that are never reached in the scenario. -/
def c3r : Except Unit AIOutcome := Except.ok (AIOutcome.success [])

/-- Scenario start: skip counter at 2 after two consecutive fast skips. -/
def c3s0 : AppState := ⟨c3pl, 0, 2, false, none⟩

/-- After the sustained-listening event: counter reset to 0. -/
def c3s1 : AppState := ⟨c3pl, 1, 0, false, none⟩

/-- After one further fast skip: counter 1. -/
def c3s2 : AppState := ⟨c3pl, 2, 1, false, none⟩

/-- After two further fast skips: counter 2, still no pivot. -/
def c3s3 : AppState := ⟨c3pl, 3, 2, false, none⟩

/-- Claim C3 (counterexample): from a skip counter at 2, a `TrackAdvanced`
event on a playable track with duration 9 (≥ 8) resets the counter to 0;
the next two fast skips then trigger no pivot (both return `false` and
leave the counter at 2) — two more fast skips do not suffice. -/
theorem skip_reset_two_more_counterexample :
    handleNext c3s0 9 c3r 0 = some (c3s1, false)
    ∧ handleNext c3s1 3 c3r 0 = some (c3s2, false)
    ∧ handleNext c3s2 3 c3r 0 = some (c3s3, false)
    ∧ c3s3.consecutiveSkips = 2 := by
  refine ⟨?_, ?_, ?_, ?_⟩ <;> decide

/-- Claim C3 (amended): a `TrackAdvanced` event on a playable track with
duration ≥ 8 resets the skip counter to 0 without triggering a pivot, after
which three more fast skips — not one — are needed to trigger the next
pivot: from counter 0 a fast skip reaches 1 without a pivot, from 1 it
reaches 2 without a pivot, and from 2 a fast skip with the lock free
triggers the pivot (resetting the counter again). -/
theorem skip_counter_reset_amended (s : AppState) (t : Track) (d : ℚ)
    (r : Except Unit AIOutcome) (now : Nat)
    (ht : s.playlist[s.currentIndex]? = some t)
    (hp : t.isPlayable = true) :
    ((8 : ℚ) ≤ d →
      (handleNext s d r now).map (fun p => (p.1.consecutiveSkips, p.2))
        = some (0, false))
    ∧ (d < 8 → s.consecutiveSkips = 0 →
      (handleNext s d r now).map (fun p => (p.1.consecutiveSkips, p.2))
        = some (1, false))
    ∧ (d < 8 → s.consecutiveSkips = 1 →
      (handleNext s d r now).map (fun p => (p.1.consecutiveSkips, p.2))
        = some (2, false))
    ∧ (d < 8 → s.consecutiveSkips = 2 → s.isGenerating = false →
      (handleNext s d r now).map (fun p => (p.1.consecutiveSkips, p.2))
        = some (0, true)) := by
  refine ⟨?_, ?_, ?_, ?_⟩
  · intro hd
    have hnd : ¬ d < 8 := not_lt.mpr hd
    simp [handleNext, ht, hp, hnd]
  · intro hd hsc
    simp [handleNext, ht, hp, hd, hsc]
  · intro hd hsc
    simp [handleNext, ht, hp, hd, hsc]
  · intro hd hsc hg
    simp [handleNext, ht, hp, hd, hsc, hg, pivotFlow_consecutiveSkips]

theorem skip_counter_reset_amended_witness :
    (handleNext c3s0 9 c3r 0).map (fun p => (p.1.consecutiveSkips, p.2))
      = some (0, false)
    ∧ (handleNext c3s3 3 c3r 0).map (fun p => (p.1.consecutiveSkips, p.2))
      = some (0, true) := by
  constructor
  · exact (skip_counter_reset_amended c3s0 c3track 9 c3r 0 rfl rfl).1 (by norm_num)
  · exact (skip_counter_reset_amended c3s3 c3track 3 c3r 0 rfl rfl).2.2.2
      (by norm_num) rfl rfl

/-- The playable track used in the single-flight scenario. -/
def c8t : Track := ⟨"T8", "A8", "m8", 1, some "p", "c", some "e", true⟩

/-- A state with the generation lock held. -/
def c8s1 : AppState := ⟨[c8t], 0, 0, true, none⟩

/-- A state with the generation lock free. -/
def c8s2 : AppState := ⟨[c8t], 0, 0, false, none⟩

/-- A state with the lock held and two fast skips accumulated. -/
def c8s3 : AppState := ⟨[c8t], 0, 2, true, none⟩

/-- The AI outcome used in the single-flight witness. -/
def c8r : Except Unit AIOutcome := Except.ok (AIOutcome.success [])

/-- Claim C8: while the generation lock is held, a `TrackLiked` event and a
pivot trigger both return with the state unchanged and no AI call issued
(`false`) — the trigger is dropped without re-acquiring the lock — and a
third fast skip triggers no pivot; when the lock is free, each expansion
flow sets the lock on entry; and each flow's finish step clears the lock on
completion and on failure alike. -/
theorem generation_lock_single_flight (s₁ s₂ s₃ : AppState) (t : Track)
    (d : ℚ) (r : Except Unit AIOutcome) (now : Nat)
    (h₁ : s₁.isGenerating = true) (h₂ : s₂.isGenerating = false)
    (h₃ : s₃.isGenerating = true)
    (ht : s₃.playlist[s₃.currentIndex]? = some t)
    (hp : t.isPlayable = true) (hsk : s₃.consecutiveSkips = 2) (hd : d < 8) :
    likeStart s₁ = (s₁, false)
    ∧ pivotStart s₁ = (s₁, false)
    ∧ (likeStart s₂).1.isGenerating = true ∧ (likeStart s₂).2 = true
    ∧ (pivotStart s₂).1.isGenerating = true ∧ (pivotStart s₂).2 = true
    ∧ (likeFinish s₁ r now).isGenerating = false
    ∧ (pivotFinish s₁ r now).isGenerating = false
    ∧ (likeFinish s₂ r now).isGenerating = false
    ∧ (pivotFinish s₂ r now).isGenerating = false
    ∧ (handleNext s₃ d r now).map (fun p => p.2) = some false := by
  refine ⟨?_, ?_, ?_, ?_, ?_, ?_, rfl, rfl, rfl, rfl, ?_⟩
  · simp [likeStart, h₁]
  · simp [pivotStart, h₁]
  · simp [likeStart, h₂]
  · simp [likeStart, h₂]
  · simp [pivotStart, h₂]
  · simp [pivotStart, h₂]
  · simp [handleNext, ht, hp, hd, hsk, h₃]

theorem generation_lock_single_flight_witness :
    likeStart c8s1 = (c8s1, false)
    ∧ (likeStart c8s2).1.isGenerating = true
    ∧ (handleNext c8s3 3 c8r 0).map (fun p => p.2) = some false := by
  have h := generation_lock_single_flight c8s1 c8s2 c8s3 c8t 3 c8r 0
    rfl rfl rfl rfl rfl rfl (by norm_num)
  exact ⟨h.1, h.2.2.1, h.2.2.2.2.2.2.2.2.2.2⟩

end MoodMuse
